import Mathlib

/-!
Shallow embedding of the conditional-deployment MLOps pipeline
(`src/pipeline/config.py`, `training.py`, `deployment.py`, `testing.py`,
`src/scripts/run_pipeline.py`).  Float values are modelled as rationals,
AWS calls as explicit environment records, and Python exceptions as
`Except String`.
-/

namespace MLOps

/-- Configuration fields of `PipelineConfig` (src/pipeline/config.py) that the
deployment decision, rollback and validation logic read. -/
structure PipelineConfig where
  ACCURACY_THRESHOLD : ℚ
  MINIMUM_ACCURACY : ℚ
  AUTO_DEPLOY_ENABLED : Bool
  ROLLBACK_ON_FAILURE : Bool
deriving Repr, DecidableEq

/-- The default environment values: `ACCURACY_THRESHOLD=0.95`,
`MINIMUM_ACCURACY=0.90`, auto-deploy and rollback enabled. -/
def defaultConfig : PipelineConfig :=
  { ACCURACY_THRESHOLD := 95/100
    MINIMUM_ACCURACY := 90/100
    AUTO_DEPLOY_ENABLED := true
    ROLLBACK_ON_FAILURE := true }

/-- `PipelineConfig.validate` (config.py lines 60-72): raises `ValueError`
(modelled as `Except.error`) when a threshold is out of `[0,1]` or
`ACCURACY_THRESHOLD < MINIMUM_ACCURACY`; otherwise returns `True`. -/
def PipelineConfig.validate (c : PipelineConfig) : Except String Bool :=
  if c.ACCURACY_THRESHOLD < 0 ∨ c.ACCURACY_THRESHOLD > 1 then
    .error "ACCURACY_THRESHOLD must be between 0 and 1"
  else if c.MINIMUM_ACCURACY < 0 ∨ c.MINIMUM_ACCURACY > 1 then
    .error "MINIMUM_ACCURACY must be between 0 and 1"
  else if c.ACCURACY_THRESHOLD < c.MINIMUM_ACCURACY then
    .error "ACCURACY_THRESHOLD must be >= MINIMUM_ACCURACY"
  else
    .ok true

/-- The three reason messages `TrainingPipeline.should_deploy` can log/return
(training.py lines 297-310), keeping the branch identity. -/
inductive DeployReason where
  | meetsThreshold (accuracy threshold : ℚ)
  | meetsMinimumOnly (accuracy minimum threshold : ℚ)
  | belowMinimum (accuracy minimum : ℚ)
deriving Repr, DecidableEq

/-- Evaluation record consumed by `should_deploy`: the code reads the
`accuracy` and `cv_mean_accuracy` keys of the evaluation dict
(training.py lines 288-289). -/
structure EvaluationDict where
  accuracy : ℚ
  cv_mean_accuracy : ℚ
deriving Repr, DecidableEq

namespace TrainingPipeline

/-- `TrainingPipeline.should_deploy` (training.py lines 278-310): promote iff
`accuracy >= ACCURACY_THRESHOLD`; otherwise hold iff
`accuracy >= MINIMUM_ACCURACY`; otherwise reject.  Returns the decision
and the reason branch. -/
def should_deploy (config : PipelineConfig) (evaluation_results : EvaluationDict) :
    Bool × DeployReason :=
  let accuracy := evaluation_results.accuracy
  if accuracy ≥ config.ACCURACY_THRESHOLD then
    (true, .meetsThreshold accuracy config.ACCURACY_THRESHOLD)
  else if accuracy ≥ config.MINIMUM_ACCURACY then
    (false, .meetsMinimumOnly accuracy config.MINIMUM_ACCURACY config.ACCURACY_THRESHOLD)
  else
    (false, .belowMinimum accuracy config.MINIMUM_ACCURACY)

end TrainingPipeline

/-- One entry of a training job's `FinalMetricDataList`
(deployment.py lines 104-106). -/
structure MetricData where
  MetricName : String
  Value : ℚ
deriving Repr, DecidableEq

/-- Python dict assignment `d[k] = v`: overwrite an existing key,
otherwise append. -/
def dictInsert (d : List (String × ℚ)) (k : String) (v : ℚ) : List (String × ℚ) :=
  if d.any (fun p => p.1 = k) then
    d.map (fun p => if p.1 = k then (k, v) else p)
  else
    d ++ [(k, v)]

/-- Python dict lookup `d.get(k)` as an option. -/
def dictGet (d : List (String × ℚ)) (k : String) : Option ℚ :=
  (d.find? (fun p => p.1 = k)).map (fun p => p.2)

/-- `final_metrics` built from the `FinalMetricDataList`
(deployment.py lines 103-106). -/
def buildFinalMetrics (l : List MetricData) : List (String × ℚ) :=
  l.foldl (fun d m => dictInsert d m.MetricName m.Value) []

/-- `final_metrics.get('accuracy', final_metrics.get('validation_accuracy', 0.0))`
(deployment.py line 109). -/
def extractAccuracy (final_metrics : List (String × ℚ)) : ℚ :=
  (dictGet final_metrics "accuracy").getD ((dictGet final_metrics "validation_accuracy").getD 0)

/-- The `evaluation_results` dict returned by `check_deployment_criteria`:
either the normal record (lines 111-116) or the exception record
(lines 130-134). -/
inductive EvaluationResults where
  | metrics (training_job_name : String) (accuracy : ℚ) (all_metrics : List (String × ℚ))
  | error (training_job_name : String) (msg : String)
deriving Repr, DecidableEq

namespace DeploymentPipeline

/-- `DeploymentPipeline.check_deployment_criteria` (deployment.py lines 84-135).
`describe` models `describe_training_job`: an exception, or a job
description whose optional field is the `FinalMetricDataList`.  All three
metric branches return the same evaluation record; only the boolean
differs. -/
def check_deployment_criteria (config : PipelineConfig) (training_job_name : String)
    (describe : Except String (Option (List MetricData))) : Bool × EvaluationResults :=
  match describe with
  | .error e => (false, .error training_job_name e)
  | .ok fml =>
    let final_metrics := buildFinalMetrics (fml.getD [])
    let accuracy := extractAccuracy final_metrics
    let evaluation_results := EvaluationResults.metrics training_job_name accuracy final_metrics
    if accuracy ≥ config.ACCURACY_THRESHOLD then
      (true, evaluation_results)
    else if accuracy ≥ config.MINIMUM_ACCURACY then
      (false, evaluation_results)
    else
      (false, evaluation_results)

end DeploymentPipeline

/-- Result of `_test_endpoint` (deployment.py lines 269-307): the success
dict, or the `{'status': 'failed', 'error': ...}` dict produced when the
invocation raises — the exception never escapes `_test_endpoint`. -/
inductive TestResults where
  | success (predictions : List ℚ) (test_duration_ms : ℚ)
  | failed (error : String)
deriving Repr, DecidableEq

/-- The `status` field of a `_test_endpoint` result dict. -/
def TestResults.status : TestResults → String
  | .success _ _ => "success"
  | .failed _ => "failed"

/-- Result of `_rollback_deployment` (deployment.py lines 309-341), keeping the
four return dicts apart: `no_previous_endpoint`; `success` with
`rolled_back_to`; `failed` with a `reason` (previous endpoint not
`InService`, line 330-334); `failed` with an `error` (an exception during
`describe_endpoint`, lines 336-341). -/
inductive RollbackResults where
  | no_previous_endpoint
  | success (rolled_back_to : String)
  | failedNotInService (endpoint_status : String)
  | failedError (error : String)
deriving Repr, DecidableEq

/-- The `status` field of a `_rollback_deployment` result dict: note that both
the not-`InService` case and the transport-fault case carry the same
`'failed'` status string. -/
def RollbackResults.status : RollbackResults → String
  | .no_previous_endpoint => "no_previous_endpoint"
  | .success _ => "success"
  | .failedNotInService _ => "failed"
  | .failedError _ => "failed"

/-- The mutable instance fields of `DeploymentPipeline`
(deployment.py lines 36-37). -/
structure DeployState where
  current_endpoint : Option String
  previous_endpoint : Option String
deriving Repr, DecidableEq

/-- Fresh `DeploymentPipeline` instance state (deployment.py lines 36-37):
both endpoint pointers start as `None`. -/
def initialState : DeployState := { current_endpoint := none, previous_endpoint := none }

/-- Outcomes of the remote calls a `deploy_model` run performs, in program
order: `describe_training_job` (line 183), `get_current_production_endpoint`
(line 204, which catches its own exceptions and yields an option),
`model.deploy` (line 208), the endpoint invocation inside `_test_endpoint`
(line 282, merged with response parsing), and `describe_endpoint` on the
previous endpoint inside `_rollback_deployment` (line 319, yielding the
`EndpointStatus` string). -/
structure DeployEnv where
  describe_training_job : Except String Unit
  get_current_production_endpoint : Option String
  model_deploy : Except String Unit
  invoke_endpoint : Except String (List ℚ)
  describe_previous_endpoint : Except String String

namespace DeploymentPipeline

/-- `DeploymentPipeline._test_endpoint` (deployment.py lines 269-307):
success and failure both return a result dict; nothing propagates. -/
def test_endpoint (invoke : Except String (List ℚ)) (test_duration_ms : ℚ) : TestResults :=
  match invoke with
  | .ok result => .success result test_duration_ms
  | .error e => .failed e

/-- `DeploymentPipeline._rollback_deployment` (deployment.py lines 309-341).
The method reads `self.previous_endpoint`, re-queries its status, and
returns a result dict; it never writes `self.current_endpoint` or any
other state. -/
def rollback_deployment (previous_endpoint : Option String)
    (describe : Except String String) : RollbackResults :=
  match previous_endpoint with
  | none => .no_previous_endpoint
  | some prev =>
    match describe with
    | .error e => .failedError e
    | .ok endpointStatus =>
      if endpointStatus = "InService" then .success prev
      else .failedNotInService endpointStatus

/-- The result dict of `deploy_model` (deployment.py lines 233-239 on success,
lines 257-263 on failure), plus the instrumentation flag
`rollbackInvoked` recording whether `_rollback_deployment` was called on
this run. -/
structure DeployModelResults where
  status : String
  endpoint_name : Option String
  attempted_endpoint : Option String
  error : Option String
  test_results : Option TestResults
  rollback_results : Option RollbackResults
  rollbackInvoked : Bool
deriving Repr, DecidableEq

/-- The `except` block of `deploy_model` (deployment.py lines 246-267):
rollback is attempted iff `ROLLBACK_ON_FAILURE` is set and
`self.previous_endpoint` is truthy; the state is not modified. -/
def deployFailure (config : PipelineConfig) (endpoint_name : String) (err : String)
    (env : DeployEnv) (s : DeployState) : DeployState × DeployModelResults :=
  if config.ROLLBACK_ON_FAILURE ∧ s.previous_endpoint.isSome then
    let rb := rollback_deployment s.previous_endpoint env.describe_previous_endpoint
    (s, { status := "failed", endpoint_name := none,
          attempted_endpoint := some endpoint_name, error := some err,
          test_results := none, rollback_results := some rb, rollbackInvoked := true })
  else
    (s, { status := "failed", endpoint_name := none,
          attempted_endpoint := some endpoint_name, error := some err,
          test_results := none, rollback_results := none, rollbackInvoked := false })

/-- `DeploymentPipeline.deploy_model` (deployment.py lines 158-267).
An exception from `describe_training_job` reaches the `except` block
before the snapshot at line 204 runs, so the old `previous_endpoint`
governs the rollback guard there; an exception from `model.deploy`
reaches it after the snapshot.  On success `_test_endpoint` runs, its
outcome is stored, and `current_endpoint` is set to the new endpoint
unconditionally (line 231) before the `'success'` dict is returned. -/
def deploy_model (config : PipelineConfig) (endpoint_name : String)
    (env : DeployEnv) (s : DeployState) : DeployState × DeployModelResults :=
  match env.describe_training_job with
  | .error e => deployFailure config endpoint_name e env s
  | .ok _ =>
    let s1 : DeployState := { s with previous_endpoint := env.get_current_production_endpoint }
    match env.model_deploy with
    | .error e => deployFailure config endpoint_name e env s1
    | .ok _ =>
      let test_results := test_endpoint env.invoke_endpoint 0
      let s2 : DeployState := { s1 with current_endpoint := some endpoint_name }
      (s2, { status := "success", endpoint_name := some endpoint_name,
             attempted_endpoint := some endpoint_name, error := none,
             test_results := some test_results, rollback_results := none,
             rollbackInvoked := false })

/-- The result dict of `run_deployment_pipeline` (deployment.py lines 343-414):
the success record (lines 387-396) or the exception record
(lines 404-409). -/
inductive PipelineResults where
  | success (training_job_name : String) (should_deploy : Bool)
      (evaluation_results : EvaluationResults) (deployment_results : Option DeployModelResults)
  | failed (error : String)
deriving Repr, DecidableEq

/-- The `pipeline_status` field of a `run_deployment_pipeline` result. -/
def PipelineResults.pipeline_status : PipelineResults → String
  | .success _ _ _ _ => "success"
  | .failed _ => "failed"

/-- Environment of a `run_deployment_pipeline` run: the
`get_latest_training_job` outcome (which catches its own exceptions,
deployment.py lines 53-82), the `describe_training_job` outcome used by
`check_deployment_criteria`, and the `deploy_model` environment. -/
structure PipelineEnv where
  latest_training_job : Option String
  describe_for_criteria : Except String (Option (List MetricData))
  deploy : DeployEnv

/-- `DeploymentPipeline.run_deployment_pipeline` (deployment.py lines 343-414):
resolve the training job (raising `ValueError` when none is found, caught
by the method's own `except` into a `'failed'` record); check criteria;
deploy only when `should_deploy` and `AUTO_DEPLOY_ENABLED`; otherwise skip
and return a `'success'` record with no deployment results. -/
def run_deployment_pipeline (config : PipelineConfig) (training_job_name : Option String)
    (endpoint_name : String) (env : PipelineEnv) (s : DeployState) :
    DeployState × PipelineResults :=
  match training_job_name.orElse (fun _ => env.latest_training_job) with
  | none => (s, .failed "No suitable training job found")
  | some job =>
    let r := check_deployment_criteria config job env.describe_for_criteria
    if r.1 ∧ config.AUTO_DEPLOY_ENABLED then
      let d := deploy_model config endpoint_name env.deploy s
      (d.1, .success job r.1 r.2 (some d.2))
    else
      (s, .success job r.1 r.2 none)

end DeploymentPipeline

/-- `main` of `src/scripts/run_pipeline.py` in `--mode deployment`
(lines 61-66, 96-120, 196): `config.validate()` failure prints and calls
`sys.exit(1)`; otherwise `run_deployment_pipeline` runs — it catches all
its own exceptions and always yields a dict carrying `pipeline_status` —
the results are printed, and `main` returns `0` regardless of that
status. -/
def mainDeploymentMode (config : PipelineConfig) (training_job_arg : Option String)
    (endpoint_name : String) (env : DeploymentPipeline.PipelineEnv) : ℕ :=
  match config.validate with
  | .error _ => 1
  | .ok _ =>
    let _r := DeploymentPipeline.run_deployment_pipeline config training_job_arg
        endpoint_name env initialState
    0

/-- One labeled functional test case from `get_test_data`
(testing.py lines 48-100) together with this run's outcome of invoking
the endpoint on it (invocation plus response parsing, testing.py
lines 187-199): either a predicted class or a transport error. -/
structure PredTestCase where
  name : String
  expected_class : ℤ
  invoke : Except String ℤ
  latency_ms : ℚ

/-- One entry of `prediction_results` (testing.py lines 206-232): the
success record (status `'success'`) or the failure record
(status `'failed'`) appended when the invocation raised. -/
inductive CaseResult where
  | success (test_name : String) (expected_class predicted_class : ℤ)
      (is_correct : Bool) (latency_ms : ℚ)
  | failed (test_name : String) (expected_class : ℤ) (error : String)
deriving Repr, DecidableEq

/-- The `status` field of a prediction case record. -/
def CaseResult.status : CaseResult → String
  | .success _ _ _ _ _ => "success"
  | .failed _ _ _ => "failed"

/-- The summary dict returned by `test_endpoint_predictions`
(testing.py lines 240-249). -/
structure PredictionTestResults where
  accuracy : ℚ
  correct_predictions : ℕ
  total_predictions : ℕ
  avg_latency_ms : ℚ
  individual_results : List CaseResult
deriving Repr, DecidableEq

namespace TestingPipeline

/-- The loop body of `test_endpoint_predictions` for one case
(testing.py lines 180-232): on success record prediction and
correctness, on a transport error record a failed case; either way one
record is appended and the loop continues. -/
def caseOutcome (tc : PredTestCase) : CaseResult :=
  match tc.invoke with
  | .ok predicted_class =>
    .success tc.name tc.expected_class predicted_class
      (decide (predicted_class = tc.expected_class)) tc.latency_ms
  | .error e => .failed tc.name tc.expected_class e

/-- Whether the loop body increments `correct_predictions` for this case
(testing.py lines 202-204): only a successful invocation whose predicted
class equals the expected class counts. -/
def caseIsCorrect (tc : PredTestCase) : Bool :=
  match tc.invoke with
  | .ok predicted_class => decide (predicted_class = tc.expected_class)
  | .error _ => false

/-- `TestingPipeline.test_endpoint_predictions` (testing.py lines 162-256):
`total_predictions` is fixed to the case count up front (line 178);
every case contributes one record; latencies are collected for
successful invocations; `accuracy = correct / total` guarded by
`total > 0` (line 235). -/
def test_endpoint_predictions (cases : List PredTestCase) : PredictionTestResults :=
  let total_predictions := cases.length
  let individual_results := cases.map caseOutcome
  let correct_predictions := (cases.filter caseIsCorrect).length
  let latencies := cases.filterMap (fun tc =>
    match tc.invoke with
    | .ok _ => some tc.latency_ms
    | .error _ => none)
  let accuracy : ℚ :=
    if total_predictions > 0 then (correct_predictions : ℚ) / (total_predictions : ℚ) else 0
  let avg_latency : ℚ :=
    if latencies.length ≠ 0 then latencies.sum / (latencies.length : ℚ) else 0
  { accuracy := accuracy
    correct_predictions := correct_predictions
    total_predictions := total_predictions
    avg_latency_ms := avg_latency
    individual_results := individual_results }

/-- The verdict fold of `run_comprehensive_tests` (testing.py lines 374-398):
starting from `'passed'`, each violated condition overwrites
`overall_status` in order — `'failed'` for an unhealthy endpoint, then
`'failed'` for low accuracy, then `'warning'` for a low success rate,
then `'warning'` for high latency — and appends one issue line.  A later
assignment replaces an earlier one, so a warning condition firing after a
failure condition leaves `'warning'`. -/
def overallVerdict (config : PipelineConfig) (health_status : String)
    (prediction_accuracy : ℚ) (success_rate : ℚ) (avg_latency_ms : ℚ) :
    String × List String :=
  let st0 : String × List String := ("passed", [])
  let st1 :=
    if health_status ≠ "healthy" then
      ("failed", st0.2 ++ ["Endpoint health check failed"])
    else st0
  let st2 :=
    if prediction_accuracy < config.MINIMUM_ACCURACY then
      ("failed", st1.2 ++ ["Prediction accuracy below minimum threshold"])
    else st1
  let st3 :=
    if success_rate < 95/100 then
      ("warning", st2.2 ++ ["Performance test success rate below 95%"])
    else st2
  let st4 :=
    if avg_latency_ms > 1000 then
      ("warning", st3.2 ++ ["Average latency above 1 second"])
    else st3
  st4

end TestingPipeline

/-!
Module-level name resolution for `src/pipeline/deployment.py`.  Method
annotations are evaluated eagerly when the `class DeploymentPipeline`
body executes at import time; each name appearing in an annotation must
resolve in the module scope (builtins, the `typing` import at line 11,
and the module-level imports at lines 7-23) or a `NameError` is raised.
-/

/-- Names bound by `from typing import Any, Dict, Optional`
(deployment.py line 11). -/
def deploymentTypingImport : List String := ["Any", "Dict", "Optional"]

/-- Python builtin names used in deployment.py method signatures. -/
def pythonBuiltins : List String := ["bool", "str", "int", "float", "dict", "list", "None"]

/-- Module-level names bound by the other imports of deployment.py
(lines 7-23). -/
def deploymentModuleImports : List String :=
  ["json", "logging", "time", "datetime", "boto3", "sagemaker",
   "get_execution_role", "SKLearnModel", "PipelineConfig", "NotificationManager"]

/-- The module scope in which deployment.py method signatures are
evaluated. -/
def deploymentModuleScope : List String :=
  pythonBuiltins ++ deploymentTypingImport ++ deploymentModuleImports

/-- For each method of `class DeploymentPipeline`, in source order, the
names whose resolution its parameter and return annotations require
(attribute accesses such as `logging.Logger` resolve the base name). -/
def deploymentMethodSignatureNames : List (String × List String) :=
  [("__init__", ["PipelineConfig", "None"]),
   ("_setup_logging", ["logging"]),
   ("get_latest_training_job", ["Optional", "str"]),
   ("check_deployment_criteria", ["str", "Tuple", "bool", "Dict", "str", "Any"]),
   ("get_current_production_endpoint", ["Optional", "str"]),
   ("deploy_model", ["str", "str", "None", "Dict", "str", "Any"]),
   ("_test_endpoint", ["str", "Dict", "str", "Any"]),
   ("_rollback_deployment", ["Dict", "str", "Any"]),
   ("run_deployment_pipeline", ["str", "None", "Dict", "str", "Any"])]

/-- Evaluate a list of annotation names in a scope: the first name that
does not resolve raises `NameError` (modelled as `Except.error`). -/
def evalNames (scope : List String) (names : List String) : Except String Unit :=
  match names.find? (fun n => ¬ scope.contains n) with
  | some n => .error ("NameError: name " ++ n ++ " is not defined")
  | none => .ok ()

/-- Executing the `class DeploymentPipeline` body at import time evaluates
each method signature in order; the first unresolvable name aborts
the module import with a `NameError`. -/
def importDeploymentModule : Except String Unit :=
  deploymentMethodSignatureNames.foldl
    (fun acc m =>
      match acc with
      | .error e => .error e
      | .ok _ => evalNames deploymentModuleScope m.2)
    (.ok ())

/-- Whether an `Except` value is an exception. -/
def isError {ε α : Type} : Except ε α → Bool
  | .error _ => true
  | .ok _ => false

/-- Deployment-run environment in which provisioning and the endpoint both
come up, a prior production endpoint `prev` exists, but the validation
invocation inside `_test_endpoint` raises a transport error: the
candidate's validation verdict is a failure. -/
def envValidationFail : DeployEnv :=
  { describe_training_job := .ok ()
    get_current_production_endpoint := some "prev"
    model_deploy := .ok ()
    invoke_endpoint := .error "transport error"
    describe_previous_endpoint := .ok "InService" }

/-- Deployment-run environment in which `model.deploy` raises while a prior
production endpoint `prev` exists and is still `InService`, so the
rollback path runs and reports success. -/
def envProvisionFail : DeployEnv :=
  { describe_training_job := .ok ()
    get_current_production_endpoint := some "prev"
    model_deploy := .error "provisioning failed"
    invoke_endpoint := .error "unreachable"
    describe_previous_endpoint := .ok "InService" }

/-- Pipeline environment in which no completed training job can be found, so
`run_deployment_pipeline` ends in its `'failed'` record. -/
def envNoTrainingJob : DeploymentPipeline.PipelineEnv :=
  { latest_training_job := none
    describe_for_criteria := .error "unused"
    deploy := envProvisionFail }

/-- Build a `PipelineConfig` from the two thresholds and the two feature
flags. -/
def mkConfig (target minimum : ℚ) (auto rb : Bool) : PipelineConfig :=
  { ACCURACY_THRESHOLD := target, MINIMUM_ACCURACY := minimum,
    AUTO_DEPLOY_ENABLED := auto, ROLLBACK_ON_FAILURE := rb }

/-!  Theorems. -/

/-- C2 counterexample: with `rollback_on_failure` enabled and a prior
production endpoint snapshot present, a candidate whose validation
(`_test_endpoint`) fails does not trigger `_rollback_deployment` — the
run even returns status `'success'` — refuting the claimed
if-and-only-if in its forward direction. -/
theorem C2_counterexample :
    defaultConfig.ROLLBACK_ON_FAILURE = true ∧
    (DeploymentPipeline.deploy_model defaultConfig "cand" envValidationFail
      initialState).1.previous_endpoint = some "prev" ∧
    (DeploymentPipeline.deploy_model defaultConfig "cand" envValidationFail
      initialState).2.test_results = some (.failed "transport error") ∧
    (DeploymentPipeline.deploy_model defaultConfig "cand" envValidationFail
      initialState).2.rollbackInvoked = false ∧
    (DeploymentPipeline.deploy_model defaultConfig "cand" envValidationFail
      initialState).2.status = "success" :=
  ⟨rfl, rfl, rfl, rfl, rfl⟩

/-- C2 (amended): `_rollback_deployment` is invoked iff `rollback_on_failure`
is enabled, the deployment body raised an exception
(`describe_training_job` or `model.deploy`), and the endpoint snapshot in
effect at that point exists — the old `previous_endpoint` for a
`describe_training_job` failure, the freshly queried production endpoint
for a `model.deploy` failure.  A failed validation of the candidate never
triggers rollback. -/
theorem C2_rollback_iff_deployment_exception (cfg : PipelineConfig) (en : String)
    (env : DeployEnv) (s : DeployState) :
    (DeploymentPipeline.deploy_model cfg en env s).2.rollbackInvoked = true ↔
      (cfg.ROLLBACK_ON_FAILURE = true ∧
        ((isError env.describe_training_job = true ∧ s.previous_endpoint.isSome = true) ∨
         (isError env.describe_training_job = false ∧ isError env.model_deploy = true ∧
          env.get_current_production_endpoint.isSome = true))) := by
  rcases hdt : env.describe_training_job with e | u <;>
    rcases hmd : env.model_deploy with e2 | u2 <;>
      simp [DeploymentPipeline.deploy_model, DeploymentPipeline.deployFailure,
        hdt, hmd, isError] <;>
        split_ifs with hg <;> simp_all

/-- C3 counterexample: in a run whose candidate validates with verdict
`failed`, `current_endpoint` is nonetheless reassigned to the candidate,
refuting the claim that the production pointer moves only after a passing
validation. -/
theorem C3_counterexample :
    (DeploymentPipeline.deploy_model defaultConfig "cand" envValidationFail
      initialState).2.test_results = some (.failed "transport error") ∧
    (DeploymentPipeline.deploy_model defaultConfig "cand" envValidationFail
      initialState).1.current_endpoint = some "cand" :=
  ⟨rfl, rfl⟩

/-- C3 (amended): `current_endpoint` is reassigned to the candidate exactly
when `describe_training_job` and `model.deploy` both succeed, regardless
of the validation outcome stored in `test_results`; on an exception the
pointer is left unchanged. -/
theorem C3_pointer_reassigned_on_provisioning (cfg : PipelineConfig) (en : String)
    (env : DeployEnv) (s : DeployState) :
    (DeploymentPipeline.deploy_model cfg en env s).1.current_endpoint =
      (if isError env.describe_training_job = true ∨ isError env.model_deploy = true
       then s.current_endpoint else some en) := by
  rcases hdt : env.describe_training_job with e | u <;>
    rcases hmd : env.model_deploy with e2 | u2 <;>
      simp [DeploymentPipeline.deploy_model, DeploymentPipeline.deployFailure,
        hdt, hmd, isError] <;>
        split_ifs <;> rfl

/-- C4 counterexample: an unhealthy endpoint together with a load success
rate below 0.95 yields overall status `'warning'`, not the worst
severity `'failed'` the claim requires. -/
theorem C4_counterexample :
    (TestingPipeline.overallVerdict defaultConfig "unhealthy" 1 (1/2) 0).1 = "warning" ∧
    (TestingPipeline.overallVerdict defaultConfig "unhealthy" 1 (1/2) 0).1 ≠ "failed" := by
  constructor <;> norm_num [TestingPipeline.overallVerdict, defaultConfig] <;> decide

/-- C4 (amended): the overall status is `'warning'` whenever the load success
rate is below 0.95 or average latency exceeds 1000 ms — even when a
failure condition also holds, since the later warning assignment
overwrites `'failed'`; it is `'failed'` when the endpoint is unhealthy or
accuracy is below the minimum and no warning condition holds; otherwise
`'passed'`.  Exactly one issue line is accumulated per violated
condition. -/
theorem C4_verdict_last_assignment_wins (cfg : PipelineConfig) (h : String)
    (a sr lat : ℚ) :
    (TestingPipeline.overallVerdict cfg h a sr lat).1 =
      (if sr < 95/100 ∨ lat > 1000 then "warning"
       else if h ≠ "healthy" ∨ a < cfg.MINIMUM_ACCURACY then "failed"
       else "passed") ∧
    (TestingPipeline.overallVerdict cfg h a sr lat).2.length =
      ((if h ≠ "healthy" then 1 else 0) + (if a < cfg.MINIMUM_ACCURACY then 1 else 0) +
       (if sr < 95/100 then 1 else 0) + (if lat > 1000 then 1 else 0)) := by
  by_cases h1 : h = "healthy" <;> by_cases h2 : a < cfg.MINIMUM_ACCURACY <;>
    by_cases h3 : sr < 95/100 <;> by_cases h4 : lat > 1000 <;>
      simp [TestingPipeline.overallVerdict, h1, h2, h3, h4]

/-- C5 counterexample: a rollback whose prior endpoint is still `InService`
reports `'success'` yet leaves `current_endpoint` untouched (here `none`,
never reassigned back to `prev`), and the not-serving outcome carries the
same `'failed'` status string as a transport fault, so it is not a
distinct status. -/
theorem C5_counterexample :
    (DeploymentPipeline.deploy_model defaultConfig "cand" envProvisionFail
      initialState).2.rollback_results = some (.success "prev") ∧
    (DeploymentPipeline.deploy_model defaultConfig "cand" envProvisionFail
      initialState).1.current_endpoint = none ∧
    (DeploymentPipeline.rollback_deployment (some "prev") (.ok "Failed")).status =
      "failed" ∧
    (DeploymentPipeline.rollback_deployment (some "prev") (.error "timeout")).status =
      "failed" :=
  ⟨rfl, rfl, rfl, rfl⟩

/-- C5 (amended): `_rollback_deployment` reports `'no_previous_endpoint'`
(not a `'failed'` status) for an absent snapshot; reports `'success'`
when the prior endpoint is still `InService` but never reassigns the
production pointer (the deployment failure path leaves
`current_endpoint` unchanged); reports `'failed'` with the queried status
when the prior endpoint is not serving, the same status string as the
transport-fault case; and whenever rollback is invoked its result is
surfaced in the returned record. -/
theorem C5_rollback_outcomes (p st e : String) (d : Except String String)
    (cfg : PipelineConfig) (en : String) (env : DeployEnv) (s : DeployState) :
    DeploymentPipeline.rollback_deployment none d = .no_previous_endpoint ∧
    (DeploymentPipeline.rollback_deployment none d).status ≠ "failed" ∧
    DeploymentPipeline.rollback_deployment (some p) (.ok st) =
      (if st = "InService" then .success p else .failedNotInService st) ∧
    DeploymentPipeline.rollback_deployment (some p) (.error e) = .failedError e ∧
    (RollbackResults.failedNotInService st).status = (RollbackResults.failedError e).status ∧
    (DeploymentPipeline.deploy_model cfg en env s).1.current_endpoint =
      (if (DeploymentPipeline.deploy_model cfg en env s).2.status = "failed"
       then s.current_endpoint else some en) ∧
    (DeploymentPipeline.deploy_model cfg en env s).2.rollback_results =
      (if (DeploymentPipeline.deploy_model cfg en env s).2.rollbackInvoked = true
       then some (DeploymentPipeline.rollback_deployment
         ((DeploymentPipeline.deploy_model cfg en env s).1.previous_endpoint)
         env.describe_previous_endpoint)
       else none) := by
  refine ⟨rfl, ?_, rfl, rfl, rfl, ?_, ?_⟩
  · simp [DeploymentPipeline.rollback_deployment, RollbackResults.status]
  all_goals
    rcases hdt : env.describe_training_job with e1 | u1 <;>
      rcases hmd : env.model_deploy with e2 | u2 <;>
        simp [DeploymentPipeline.deploy_model, DeploymentPipeline.deployFailure,
          DeploymentPipeline.rollback_deployment, hdt, hmd] <;>
          split_ifs <;> simp_all

/-- C6 counterexample: in `--mode deployment`, a run whose deployment stage
ends in the `'failed'` record (no completed training job can be found)
still exits with code 0, refuting the claim that such runs exit
non-zero. -/
theorem C6_counterexample :
    (DeploymentPipeline.run_deployment_pipeline defaultConfig none "cand"
      envNoTrainingJob initialState).2.pipeline_status = "failed" ∧
    mainDeploymentMode defaultConfig none "cand" envNoTrainingJob = 0 := by
  have hv : defaultConfig.validate = .ok true := by
    norm_num [PipelineConfig.validate, defaultConfig]
  exact ⟨rfl, by simp [mainDeploymentMode, hv]⟩

/-- C6 (amended): the deployment-mode CLI exit code is 1 exactly when
configuration validation raises; once configuration validates the exit
code is 0 regardless of stage outcomes, because
`run_deployment_pipeline` catches all its own exceptions and `main`
returns 0 after printing whatever `pipeline_status` it produced. -/
theorem C6_exit_code (cfg : PipelineConfig) (arg : Option String) (en : String)
    (env : DeploymentPipeline.PipelineEnv) :
    mainDeploymentMode cfg arg en env = (if isError cfg.validate = true then 1 else 0) := by
  unfold mainDeploymentMode
  rcases hv : cfg.validate with e | b <;> simp [hv, isError]

/-- C7: the reported functional accuracy equals the number of cases whose
prediction matches the expected class divided by the total number of
cases; `total_predictions` is the full batch size; every case — including
one whose invocation raised a transport error — contributes exactly one
record, the loop never aborting; and an error case is recorded as a
failed case that does not count as correct. -/
theorem C7_functional_accuracy (cases : List PredTestCase) :
    (TestingPipeline.test_endpoint_predictions cases).accuracy =
      ((cases.countP (fun tc =>
        match tc.invoke with
        | .ok predicted => decide (predicted = tc.expected_class)
        | .error _ => false)) : ℚ) / (cases.length : ℚ) ∧
    (TestingPipeline.test_endpoint_predictions cases).total_predictions = cases.length ∧
    (TestingPipeline.test_endpoint_predictions cases).individual_results.length =
      cases.length ∧
    (TestingPipeline.test_endpoint_predictions cases).individual_results =
      cases.map TestingPipeline.caseOutcome ∧
    (∀ (nm : String) (ec : ℤ) (err : String) (lat : ℚ),
      TestingPipeline.caseOutcome ⟨nm, ec, .error err, lat⟩ = .failed nm ec err) ∧
    (∀ (nm : String) (ec : ℤ) (err : String) (lat : ℚ),
      TestingPipeline.caseIsCorrect ⟨nm, ec, .error err, lat⟩ = false) := by
  refine ⟨?_, rfl, ?_, rfl, fun nm ec err lat => rfl, fun nm ec err lat => rfl⟩
  · simp only [TestingPipeline.test_endpoint_predictions]
    rcases Nat.eq_zero_or_pos cases.length with hz | hp
    · rw [if_neg (by omega), List.countP_eq_length_filter, hz]
      rw [List.length_eq_zero.mp hz]
      simp
    · rw [if_pos hp, List.countP_eq_length_filter]
      rfl
  · simp [TestingPipeline.test_endpoint_predictions]

/-- C1: with `0 ≤ minimum ≤ target ≤ 1`, the deployment decision is a
trichotomy on primary accuracy with inclusive lower bounds, both in
`TrainingPipeline.should_deploy` and in
`DeploymentPipeline.check_deployment_criteria`: accuracy at or above the
target promotes (so `accuracy = target` promotes), accuracy in
`[minimum, target)` holds with the meets-minimum reason (so
`accuracy = minimum` holds when `minimum < target`), and accuracy below
the minimum rejects. -/
theorem C1_decision_trichotomy (target minimum : ℚ) (auto rb : Bool)
    (ev : EvaluationDict) (job : String) (fml : List MetricData)
    (h0 : 0 ≤ minimum) (h1 : minimum ≤ target) (h2 : target ≤ 1) :
    (target ≤ ev.accuracy →
      TrainingPipeline.should_deploy (mkConfig target minimum auto rb) ev =
        (true, .meetsThreshold ev.accuracy target)) ∧
    (minimum ≤ ev.accuracy → ev.accuracy < target →
      TrainingPipeline.should_deploy (mkConfig target minimum auto rb) ev =
        (false, .meetsMinimumOnly ev.accuracy minimum target)) ∧
    (ev.accuracy < minimum →
      TrainingPipeline.should_deploy (mkConfig target minimum auto rb) ev =
        (false, .belowMinimum ev.accuracy minimum)) ∧
    (target ≤ extractAccuracy (buildFinalMetrics fml) →
      (DeploymentPipeline.check_deployment_criteria (mkConfig target minimum auto rb) job
        (.ok (some fml))).1 = true) ∧
    (extractAccuracy (buildFinalMetrics fml) < target →
      (DeploymentPipeline.check_deployment_criteria (mkConfig target minimum auto rb) job
        (.ok (some fml))).1 = false) := by
  refine ⟨?_, ?_, ?_, ?_, ?_⟩
  · intro h
    simp only [TrainingPipeline.should_deploy, mkConfig]
    rw [if_pos h]
  · intro hmin htar
    simp only [TrainingPipeline.should_deploy, mkConfig]
    rw [if_neg (not_le.mpr htar), if_pos hmin]
  · intro h
    simp only [TrainingPipeline.should_deploy, mkConfig]
    rw [if_neg (not_le.mpr (lt_of_lt_of_le h h1)), if_neg (not_le.mpr h)]
  · intro h
    simp only [DeploymentPipeline.check_deployment_criteria, mkConfig, Option.getD_some]
    rw [if_pos h]
  · intro h
    simp only [DeploymentPipeline.check_deployment_criteria, mkConfig, Option.getD_some]
    rw [if_neg (not_le.mpr h)]
    split_ifs <;> rfl

/-- C1 witness: at the default thresholds, an accuracy exactly at the target
promotes, and a job metric accuracy exactly at the minimum holds back. -/
theorem C1_decision_trichotomy_witness :
    TrainingPipeline.should_deploy (mkConfig (95/100) (90/100) true true) ⟨95/100, 1⟩ =
      (true, .meetsThreshold (95/100) (95/100)) ∧
    TrainingPipeline.should_deploy (mkConfig (95/100) (90/100) true true) ⟨90/100, 1⟩ =
      (false, .meetsMinimumOnly (90/100) (90/100) (95/100)) ∧
    (DeploymentPipeline.check_deployment_criteria (mkConfig (95/100) (90/100) true true) "job"
      (.ok (some [⟨"accuracy", 90/100⟩]))).1 = false := by
  refine ⟨?_, ?_, ?_⟩
  · exact (C1_decision_trichotomy (95/100) (90/100) true true ⟨95/100, 1⟩ "job" []
      (by norm_num) (by norm_num) (by norm_num)).1 le_rfl
  · exact ((C1_decision_trichotomy (95/100) (90/100) true true ⟨90/100, 1⟩ "job" []
      (by norm_num) (by norm_num) (by norm_num)).2.1) le_rfl (by norm_num)
  · exact ((C1_decision_trichotomy (95/100) (90/100) true true ⟨1, 1⟩ "job"
      [⟨"accuracy", 90/100⟩] (by norm_num) (by norm_num) (by norm_num)).2.2.2.2)
      (by norm_num [extractAccuracy, buildFinalMetrics, dictInsert, dictGet, List.find?])

/-- C8: `PipelineConfig.validate` raises exactly when a threshold lies outside
`[0,1]` or the target is below the minimum, and returns `True` exactly on
threshold pairs with `0 ≤ minimum ≤ target ≤ 1`. -/
theorem C8_config_validation (c : PipelineConfig) :
    (isError c.validate = true ↔
      (c.ACCURACY_THRESHOLD < 0 ∨ 1 < c.ACCURACY_THRESHOLD ∨
       c.MINIMUM_ACCURACY < 0 ∨ 1 < c.MINIMUM_ACCURACY ∨
       c.ACCURACY_THRESHOLD < c.MINIMUM_ACCURACY)) ∧
    (c.validate = .ok true ↔
      (0 ≤ c.MINIMUM_ACCURACY ∧ c.MINIMUM_ACCURACY ≤ c.ACCURACY_THRESHOLD ∧
       c.ACCURACY_THRESHOLD ≤ 1)) := by
  have hbad : (c.ACCURACY_THRESHOLD < 0 ∨ 1 < c.ACCURACY_THRESHOLD ∨
      c.MINIMUM_ACCURACY < 0 ∨ 1 < c.MINIMUM_ACCURACY ∨
      c.ACCURACY_THRESHOLD < c.MINIMUM_ACCURACY) → isError c.validate = true := by
    intro h
    unfold PipelineConfig.validate
    split_ifs with hA hB hC
    · rfl
    · rfl
    · rfl
    · exfalso
      push_neg at hA hB hC
      rcases h with h | h | h | h | h <;> linarith [hA.1, hA.2, hB.1, hB.2]
  by_cases hb : (c.ACCURACY_THRESHOLD < 0 ∨ 1 < c.ACCURACY_THRESHOLD ∨
      c.MINIMUM_ACCURACY < 0 ∨ 1 < c.MINIMUM_ACCURACY ∨
      c.ACCURACY_THRESHOLD < c.MINIMUM_ACCURACY)
  · have herr := hbad hb
    refine ⟨iff_of_true herr hb, iff_of_false ?_ ?_⟩
    · intro hok
      rw [hok] at herr
      exact absurd herr (by simp [isError])
    · rintro ⟨p, q, r⟩
      rcases hb with h | h | h | h | h <;> linarith
  · push_neg at hb
    obtain ⟨hA1, hA2, hB1, hB2, hC⟩ := hb
    have hok : c.validate = .ok true := by
      unfold PipelineConfig.validate
      rw [if_neg (by push_neg; exact ⟨hA1, hA2⟩),
          if_neg (by push_neg; exact ⟨hB1, hB2⟩),
          if_neg (not_lt.mpr hC)]
    refine ⟨iff_of_false ?_ ?_, iff_of_true hok ⟨hB1, hC, hA2⟩⟩
    · rw [hok]
      simp [isError]
    · rintro (h | h | h | h | h) <;> linarith

/-- C9: the `typing` import of deployment.py binds only `Any`, `Dict` and
`Optional`, so the name `Tuple` used in the return annotation of
`check_deployment_criteria` is undefined in the module scope; under eager
annotation evaluation the class body raises a `NameError` at import time
(all methods declared before `check_deployment_criteria` evaluate their
signatures without error). -/
theorem C9_tuple_name_error :
    importDeploymentModule = .error "NameError: name Tuple is not defined" ∧
    deploymentModuleScope.contains "Tuple" = false ∧
    ((deploymentMethodSignatureNames.take 3).all
      (fun m => match evalNames deploymentModuleScope m.2 with
        | .ok _ => true
        | .error _ => false)) = true := by
  exact ⟨rfl, rfl, rfl⟩

/-- Any pair in the dict after a Python-style insert either has the inserted
key or the key of a pair already present. -/
theorem dictInsert_fst {d : List (String × ℚ)} {k : String} {v : ℚ} {p : String × ℚ}
    (hp : p ∈ dictInsert d k v) : p.1 = k ∨ ∃ q ∈ d, p.1 = q.1 := by
  unfold dictInsert at hp
  split_ifs at hp with h
  · obtain ⟨q, hq, hpq⟩ := List.mem_map.mp hp
    by_cases hk : q.1 = k
    · left
      rw [← hpq]
      simp [hk]
    · right
      refine ⟨q, hq, ?_⟩
      rw [← hpq]
      simp [hk]
  · rcases List.mem_append.mp hp with h' | h'
    · exact .inr ⟨p, h', rfl⟩
    · left
      simp only [List.mem_singleton] at h'
      rw [h']

/-- Every key of `buildFinalMetrics l` (from any starting accumulator whose
keys already satisfy `P`) is the name of some metric in `l`, up to `P`. -/
theorem buildFinalMetrics_fst (P : String → Prop) :
    ∀ (l : List MetricData) (acc : List (String × ℚ)),
      (∀ q ∈ acc, P q.1) → (∀ m ∈ l, P m.MetricName) →
      ∀ p ∈ l.foldl (fun d m => dictInsert d m.MetricName m.Value) acc, P p.1 := by
  intro l
  induction l with
  | nil => intro acc hacc _ p hp; exact hacc p hp
  | cons m l ih =>
    intro acc hacc hl p hp
    refine ih (dictInsert acc m.MetricName m.Value) ?_ (fun x hx => hl x (.tail _ hx)) p hp
    intro q hq
    rcases dictInsert_fst hq with h | ⟨r, hr, hqr⟩
    · rw [h]; exact hl m (.head _)
    · rw [hqr]; exact hacc r hr

/-- A dict none of whose keys is `k` yields no value for `k`. -/
theorem dictGet_eq_none {d : List (String × ℚ)} {k : String}
    (h : ∀ p ∈ d, p.1 ≠ k) : dictGet d k = none := by
  unfold dictGet
  rw [List.find?_eq_none.mpr]
  · rfl
  · intro p hp
    simpa using h p hp

/-- C10: when the final metric list has neither an `accuracy` nor a
`validation_accuracy` entry (and the accuracy target is positive, as the
0.95 default is), `check_deployment_criteria` treats the accuracy as 0,
returns `should_deploy = False`, and produces the normal metrics
evaluation record rather than an error record. -/
theorem C10_missing_metric_holds_back (cfg : PipelineConfig) (job : String)
    (fml : List MetricData)
    (hmiss : ∀ m ∈ fml, m.MetricName ≠ "accuracy" ∧ m.MetricName ≠ "validation_accuracy")
    (hpos : 0 < cfg.ACCURACY_THRESHOLD) :
    DeploymentPipeline.check_deployment_criteria cfg job (.ok (some fml)) =
      (false, .metrics job 0 (buildFinalMetrics fml)) := by
  have hkeys : ∀ p ∈ buildFinalMetrics fml,
      p.1 ≠ "accuracy" ∧ p.1 ≠ "validation_accuracy" :=
    buildFinalMetrics_fst (fun s => s ≠ "accuracy" ∧ s ≠ "validation_accuracy") fml []
      (by intro q hq; cases hq) hmiss
  have hext : extractAccuracy (buildFinalMetrics fml) = 0 := by
    unfold extractAccuracy
    rw [dictGet_eq_none (fun p hp => (hkeys p hp).1),
        dictGet_eq_none (fun p hp => (hkeys p hp).2)]
    rfl
  simp only [DeploymentPipeline.check_deployment_criteria, Option.getD_some]
  rw [hext, if_neg (not_le.mpr hpos)]
  split_ifs <;> rfl

/-- C10 witness: at the default configuration, a metric list carrying only a
`loss` metric is treated as accuracy 0 and held back with a normal
evaluation record. -/
theorem C10_missing_metric_holds_back_witness :
    DeploymentPipeline.check_deployment_criteria defaultConfig "job"
      (.ok (some [⟨"loss", 1/10⟩])) =
      (false, .metrics "job" 0 (buildFinalMetrics [⟨"loss", 1/10⟩])) :=
  C10_missing_metric_holds_back defaultConfig "job" [⟨"loss", 1/10⟩]
    (by decide) (by norm_num [defaultConfig])

end MLOps
